import Mathlib

/-!
Verification of the piston_window session core (src/lib.rs).

The program is a per-frame session object: a struct of reference-counted
handles (window, GFX stream, device, 2D renderer, event loop, application
state, factory) plus an optional current event.  We embed it shallowly:

* handles become natural-number identifiers (reference identity = equality
  of the identifier; cloning a handle keeps the identifier);
* the mutable state behind the handles becomes an explicit `World` record
  (remaining event-source events, window drawable size, stream output
  width/height, device cleanup counter, application data, and an
  append-only trace of GPU-side actions);
* the u16 casts at lib.rs lines 74 and 159-160 become `% 65536`;
* closures passed to draw_2d / draw_3d become functions on the
  application data, and a panic (Option.unwrap on None) becomes `none`.
-/

namespace Piston

/-- Render event arguments (piston RenderArgs: drawable width and height). -/
structure RenderArgs where
  width : Nat
  height : Nat
deriving DecidableEq

/-- The viewport derived from render arguments, as passed to g2d.draw. -/
def RenderArgs.viewport (a : RenderArgs) : Nat × Nat := (a.width, a.height)

/-- The event union delivered by the event source: render request,
post-present (after-render) notification, resize notification, update
tick, or other input. -/
inductive Event where
  | render (args : RenderArgs)
  | afterRender
  | resize (w h : Nat)
  | update (dt : Nat)
  | input (i : Nat)
deriving DecidableEq

/-- render_args: the render payload when the event is a render request. -/
def Event.render_args : Event → Option RenderArgs
  | .render a => some a
  | _ => none

/-- after_render_args: present exactly when the event is a post-present
notification. -/
def Event.after_render_args : Event → Option Unit
  | .afterRender => some ()
  | _ => none

/-- resize_args: the carried dimensions when the event is a resize
notification. -/
def Event.resize_args : Event → Option (Nat × Nat)
  | .resize w h => some (w, h)
  | _ => none

/-- The identity tag of an underlying event. -/
def Event.event_id : Event → String
  | .render _ => "piston/render"
  | .afterRender => "piston/after-render"
  | .resize _ _ => "piston/resize"
  | .update _ => "piston/update"
  | .input _ => "piston/input"

/-- The typed payload of an event, as seen through the Any visitor. -/
inductive Payload where
  | render (args : RenderArgs)
  | afterRender
  | resize (w h : Nat)
  | update (dt : Nat)
  | input (i : Nat)
deriving DecidableEq

/-- Extract the typed payload of an event. -/
def Event.payload : Event → Payload
  | .render a => .render a
  | .afterRender => .afterRender
  | .resize w h => .resize w h
  | .update d => .update d
  | .input i => .input i

/-- The underlying event type reconstructs an event of a given identity
from a typed payload; reconstruction fails when the identity does not
match the payload kind. -/
def Event.from_args (i : String) (p : Payload) (_old : Event) : Option Event :=
  match p with
  | .render a => if i = "piston/render" then some (.render a) else none
  | .afterRender => if i = "piston/after-render" then some .afterRender else none
  | .resize w h => if i = "piston/resize" then some (.resize w h) else none
  | .update d => if i = "piston/update" then some (.update d) else none
  | .input j => if i = "piston/input" then some (.input j) else none

/-- GPU-side actions recorded in order, so that temporal claims
(cleanup before draw, callback then flush) are statements about the
trace. -/
inductive Action where
  | cleanup
  | setOutputSize (w h : Nat)
  | callback2d (v : Nat × Nat)
  | callback3d
  | flush
deriving DecidableEq

/-- The mutable state behind the shared handles: the remaining events of
the event source, the window drawable size, the stream output target
width/height (16-bit values), the device cleanup counter, the
application-visible data mutated by drawing callbacks, and the action
trace. -/
structure World where
  events : List Event
  drawSize : Nat × Nat
  streamWidth : Nat
  streamHeight : Nat
  cleanupCount : Nat
  appData : Nat
  trace : List Action
deriving DecidableEq

/-- The session struct (lib.rs lines 24-41): handle identifiers for the
window, GFX stream, device, 2D renderer, event loop, application state
and factory, plus the optional current event.  The type parameter is the
application-state type, phantom here because the typed content lives
behind the handle. -/
structure PistonWindow (T : Type) where
  window : Nat
  stream : Nat
  device : Nat
  g2d : Nat
  events : Nat
  event : Option Event
  app : Nat
  factory : Nat
deriving DecidableEq

/-- Construction (lib.rs lines 64-90): allocates device, factory, 2D
renderer and stream, sizes the output target from the window drawable
size cast to u16, takes the window event source, and sets no current
event.  Returns the root session and the initial world. -/
def PistonWindow.new {T : Type} (windowId appId : Nat) (drawSize : Nat × Nat)
    (evs : List Event) : PistonWindow T × World :=
  ({ window := windowId, stream := 1, device := 2, g2d := 3, events := 4,
     event := none, app := appId, factory := 5 },
   { events := evs, drawSize := drawSize,
     streamWidth := drawSize.1 % 65536, streamHeight := drawSize.2 % 65536,
     cleanupCount := 0, appData := 0, trace := [] })

/-- The app method (lib.rs lines 93-104): moves every handle unchanged
into a session over the new application-state type, replacing only the
application-state handle. -/
def PistonWindow.app' {T U : Type} (self : PistonWindow T) (a : Nat) :
    PistonWindow U :=
  { window := self.window, stream := self.stream, device := self.device,
    g2d := self.g2d, events := self.events, event := self.event,
    app := a, factory := self.factory }

/-- draw_2d (lib.rs lines 107-124): when the current event is present and
is a render request, run the drawing callback through g2d.draw with the
viewport of the render arguments, then flush the stream to the device;
otherwise do nothing. -/
def PistonWindow.draw_2d {T : Type} (self : PistonWindow T) (f : Nat → Nat)
    (w : World) : World :=
  match self.event with
  | some e =>
    match e.render_args with
    | some args =>
      let w1 := { w with appData := f w.appData,
                         trace := w.trace ++ [Action.callback2d args.viewport] }
      { w1 with trace := w1.trace ++ [Action.flush] }
    | none => w
  | none => w

/-- draw_3d (lib.rs lines 127-139): same render gating, runs the callback
on the raw stream, then flushes. -/
def PistonWindow.draw_3d {T : Type} (self : PistonWindow T) (f : Nat → Nat)
    (w : World) : World :=
  match self.event with
  | some e =>
    match e.render_args with
    | some _ =>
      let w1 := { w with appData := f w.appData,
                         trace := w.trace ++ [Action.callback3d] }
      { w1 with trace := w1.trace ++ [Action.flush] }
    | none => w
  | none => w

/-- Iterator next (lib.rs lines 147-174): pull the next event; on a
post-present notification run device cleanup; on a resize notification
set the stream output width/height to the window drawable size cast to
u16; then yield a new session sharing every handle with the current
event set to the pulled event.  Returns none when the event source is
exhausted. -/
def PistonWindow.next {T : Type} (self : PistonWindow T) (w : World) :
    Option (PistonWindow T) × World :=
  match w.events with
  | [] => (none, w)
  | e :: rest =>
    let w1 := { w with events := rest }
    let w2 :=
      if (e.after_render_args).isSome then
        { w1 with cleanupCount := w1.cleanupCount + 1,
                  trace := w1.trace ++ [Action.cleanup] }
      else w1
    let w3 :=
      if (e.resize_args).isSome then
        { w2 with streamWidth := w2.drawSize.1 % 65536,
                  streamHeight := w2.drawSize.2 % 65536,
                  trace := w2.trace ++
                    [Action.setOutputSize (w2.drawSize.1 % 65536)
                      (w2.drawSize.2 % 65536)] }
      else w2
    (some { self with event := some e }, w3)

/-- GenericEvent event_id (lib.rs lines 180-185): the identity of the
current event, or the empty tag when no event is set. -/
def PistonWindow.event_id {T : Type} (self : PistonWindow T) : String :=
  match self.event with
  | some e => e.event_id
  | none => ""

/-- GenericEvent with_args (lib.rs lines 187-191): unwrap the current
event and visit its payload; the unwrap panic on an absent event is
embedded as none. -/
def PistonWindow.with_args {T U : Type} (self : PistonWindow T)
    (f : Payload → U) : Option U :=
  match self.event with
  | some e => some (f e.payload)
  | none => none

/-- GenericEvent from_args (lib.rs lines 193-211): reconstruct an event
against the prior session; none when the prior session has no current
event or the underlying reconstruction fails, otherwise a session
cloning every handle and carrying the reconstructed event. -/
def PistonWindow.from_args {T : Type} (i : String) (p : Payload)
    (old : PistonWindow T) : Option (PistonWindow T) :=
  match old.event with
  | some e =>
    match Event.from_args i p e with
    | some e2 =>
      some { window := old.window, stream := old.stream, device := old.device,
             g2d := old.g2d, events := old.events, event := some e2,
             app := old.app, factory := old.factory }
    | none => none
  | none => none

/-- Whether the current event of a session is a render request. -/
def sessionIsRender {T : Type} (self : PistonWindow T) : Bool :=
  match self.event with
  | some e => (e.render_args).isSome
  | none => false

/-- Concrete session and world used by witnesses: current event is a
render request, one update tick pending in the event source. -/
def sampleRender : Piston.PistonWindow Unit × Piston.World :=
  Piston.PistonWindow.new 0 0 (800, 600) [Piston.Event.update 1]

/-- The sample session with its current event set to a render request. -/
def sampleRenderSession : Piston.PistonWindow Unit :=
  { sampleRender.1 with event := some (Piston.Event.render ⟨800, 600⟩) }

/-- Concrete session and world whose pending event is a resize to the
same dimensions the window drawable size reports. -/
def sampleResize : Piston.PistonWindow Unit × Piston.World :=
  Piston.PistonWindow.new 0 0 (800, 600) [Piston.Event.resize 800 600]

/-- Concrete session and world whose pending event is a post-present
notification. -/
def sampleAfter : Piston.PistonWindow Unit × Piston.World :=
  Piston.PistonWindow.new 0 0 (800, 600) [Piston.Event.afterRender]

/-- Concrete session and world whose drawable width 65536 does not fit
in 16 bits, with a matching resize notification pending. -/
def bigResize : Piston.PistonWindow Unit × Piston.World :=
  Piston.PistonWindow.new 0 0 (65536, 600) [Piston.Event.resize 65536 600]

/-- Helper: draw_2d and draw_3d only append to the action trace, so an
action already recorded (such as a cleanup) precedes in the trace every
action a later draw appends. -/
theorem draw_trace_mono {T : Type} (s : PistonWindow T) (f : Nat → Nat)
    (v : World) :
    (∃ t, (s.draw_2d f v).trace = v.trace ++ t)
    ∧ ∃ t, (s.draw_3d f v).trace = v.trace ++ t := by
  obtain ⟨_, _, _, _, _, ev, _, _⟩ := s
  cases ev with
  | none => simp [PistonWindow.draw_2d, PistonWindow.draw_3d]
  | some e =>
    cases e <;>
      simp [PistonWindow.draw_2d, PistonWindow.draw_3d, Event.render_args]

/-- Claim C1: the callback passed to draw_2d executes if and only if the
current event is present and is a render request, and likewise for
draw_3d; when the current event is absent or not a render request both
operations leave the world unchanged (no flush, no side effect). -/
theorem draw_callback_iff_render {T : Type} (self : PistonWindow T)
    (f g : Nat → Nat) (w : World) :
    ((∃ v, (self.draw_2d f w).trace
        = w.trace ++ [Action.callback2d v, Action.flush])
      ↔ sessionIsRender self = true)
    ∧ (((self.draw_3d g w).trace
        = w.trace ++ [Action.callback3d, Action.flush])
      ↔ sessionIsRender self = true)
    ∧ (sessionIsRender self = false →
        self.draw_2d f w = w ∧ self.draw_3d g w = w) := by
  obtain ⟨win, st, dev, gd, evs, ev, ap, fac⟩ := self
  cases ev with
  | none =>
    simp [PistonWindow.draw_2d, PistonWindow.draw_3d, sessionIsRender]
  | some e =>
    cases e <;>
      simp [PistonWindow.draw_2d, PistonWindow.draw_3d, sessionIsRender,
        Event.render_args]

/-- Claim C1 witness: the theorem at a concrete render session and
world. -/
theorem draw_callback_iff_render_witness :
    ((∃ v, (sampleRenderSession.draw_2d id sampleRender.2).trace
        = sampleRender.2.trace ++ [Action.callback2d v, Action.flush])
      ↔ sessionIsRender sampleRenderSession = true)
    ∧ (((sampleRenderSession.draw_3d id sampleRender.2).trace
        = sampleRender.2.trace ++ [Action.callback3d, Action.flush])
      ↔ sessionIsRender sampleRenderSession = true)
    ∧ (sessionIsRender sampleRenderSession = false →
        sampleRenderSession.draw_2d id sampleRender.2 = sampleRender.2
        ∧ sampleRenderSession.draw_3d id sampleRender.2 = sampleRender.2) :=
  draw_callback_iff_render sampleRenderSession id id sampleRender.2

/-- Claim C2 (amended): an advance whose pulled event is a resize
notification carrying (x, y), with the window drawable size equal to
(x, y), sets the stream output target to x and y reduced modulo 65536;
when both dimensions fit in 16 bits the stored values equal x and y
exactly. -/
theorem resize_sets_output_target {T : Type} (self : PistonWindow T)
    (w : World) (x y : Nat) (rest : List Event)
    (hev : w.events = Event.resize x y :: rest)
    (hsz : w.drawSize = (x, y)) :
    (self.next w).2.streamWidth = x % 65536
    ∧ (self.next w).2.streamHeight = y % 65536
    ∧ (x < 65536 → (self.next w).2.streamWidth = x)
    ∧ (y < 65536 → (self.next w).2.streamHeight = y) := by
  refine ⟨?_, ?_, ?_, ?_⟩ <;>
    simp [PistonWindow.next, hev, hsz, Event.after_render_args,
      Event.resize_args]

/-- Claim C2 witness: the amended theorem at the concrete resize
session. -/
theorem resize_sets_output_target_witness :
    (sampleResize.1.next sampleResize.2).2.streamWidth = 800
    ∧ (sampleResize.1.next sampleResize.2).2.streamHeight = 600 :=
  ⟨(resize_sets_output_target sampleResize.1 sampleResize.2 800 600 []
      rfl rfl).2.2.1 (by decide),
   (resize_sets_output_target sampleResize.1 sampleResize.2 800 600 []
      rfl rfl).2.2.2 (by decide)⟩

/-- Claim C2 counterexample: a resize notification carrying width 65536
leaves the output target width 0, not exactly 65536, refuting the claim
that the stored dimensions always equal the carried ones exactly. -/
theorem resize_not_exact_above_u16 :
    (bigResize.1.next bigResize.2).2.streamWidth = 0
    ∧ (bigResize.1.next bigResize.2).2.streamWidth ≠ 65536 := by
  decide

/-- Claim C3: an advance whose pulled event is a post-present
notification increments the device cleanup counter by exactly one and
records the cleanup before the new session is produced; no other event
kind triggers cleanup; and draws only append to the trace, so the
recorded cleanup precedes every action of any subsequent draw. -/
theorem cleanup_on_after_render {T : Type} (self : PistonWindow T)
    (w : World) (e : Event) (rest : List Event)
    (hev : w.events = e :: rest) :
    (e.after_render_args.isSome = true →
      (self.next w).2.cleanupCount = w.cleanupCount + 1
      ∧ (self.next w).2.trace = w.trace ++ [Action.cleanup])
    ∧ (e.after_render_args.isSome = false →
      (self.next w).2.cleanupCount = w.cleanupCount)
    ∧ ∀ (s : PistonWindow T) (f : Nat → Nat) (v : World),
        (∃ t, (s.draw_2d f v).trace = v.trace ++ t)
        ∧ ∃ t, (s.draw_3d f v).trace = v.trace ++ t := by
  refine ⟨?_, ?_, fun s f v => draw_trace_mono s f v⟩ <;>
    intro h <;>
    cases e <;>
    simp_all [PistonWindow.next, hev, Event.after_render_args,
      Event.resize_args]

/-- Claim C3 witness: the theorem at the concrete post-present
session. -/
theorem cleanup_on_after_render_witness :
    (sampleAfter.1.next sampleAfter.2).2.cleanupCount
      = sampleAfter.2.cleanupCount + 1
    ∧ (sampleAfter.1.next sampleAfter.2).2.trace
      = sampleAfter.2.trace ++ [Action.cleanup] :=
  (cleanup_on_after_render sampleAfter.1 sampleAfter.2 Event.afterRender []
    rfl).1 rfl

/-- Claim C4: advance returns none exactly when the event source is
exhausted; when the source yields an event, advance returns a session
carrying that event whose every handle equals the input session handle,
and consumes exactly that one event from the source. -/
theorem next_spec {T : Type} (self : PistonWindow T) (w : World) :
    ((self.next w).1 = none ↔ w.events = [])
    ∧ ∀ e rest, w.events = e :: rest →
        ∃ s, (self.next w).1 = some s ∧ s.event = some e
          ∧ s.window = self.window ∧ s.stream = self.stream
          ∧ s.device = self.device ∧ s.g2d = self.g2d
          ∧ s.events = self.events ∧ s.app = self.app
          ∧ s.factory = self.factory
          ∧ (self.next w).2.events = rest := by
  constructor
  · constructor
    · intro hn
      cases hevs : w.events with
      | nil => rfl
      | cons e rest => simp [PistonWindow.next, hevs] at hn
    · intro hn
      simp [PistonWindow.next, hn]
  · intro e rest h
    refine ⟨{ self with event := some e }, ?_⟩
    cases e <;>
      simp [PistonWindow.next, h, Event.after_render_args, Event.resize_args]

/-- Claim C4 witness: the theorem at the concrete update-tick session. -/
theorem next_spec_witness :
    ∃ s, (sampleRender.1.next sampleRender.2).1 = some s
      ∧ s.event = some (Event.update 1)
      ∧ s.window = sampleRender.1.window ∧ s.stream = sampleRender.1.stream
      ∧ s.device = sampleRender.1.device ∧ s.g2d = sampleRender.1.g2d
      ∧ s.events = sampleRender.1.events ∧ s.app = sampleRender.1.app
      ∧ s.factory = sampleRender.1.factory
      ∧ (sampleRender.1.next sampleRender.2).2.events = [] :=
  (next_spec sampleRender.1 sampleRender.2).2 (Event.update 1) [] rfl

/-- Claim C5: the app method returns a session whose window, stream,
device, renderer, event-source and factory handles are identical to the
input session handles, with only the application-state handle replaced
and the current event preserved; a draw_2d after the replacement has
exactly the same effect on the world as before. -/
theorem app_replaces_only_state {T U : Type} (self : PistonWindow T)
    (a : Nat) (f : Nat → Nat) (w : World) :
    (self.app' a : PistonWindow U).window = self.window
    ∧ (self.app' a : PistonWindow U).stream = self.stream
    ∧ (self.app' a : PistonWindow U).device = self.device
    ∧ (self.app' a : PistonWindow U).g2d = self.g2d
    ∧ (self.app' a : PistonWindow U).events = self.events
    ∧ (self.app' a : PistonWindow U).factory = self.factory
    ∧ (self.app' a : PistonWindow U).event = self.event
    ∧ (self.app' a : PistonWindow U).app = a
    ∧ (self.app' a : PistonWindow U).draw_2d f w = self.draw_2d f w := by
  obtain ⟨win, st, dev, gd, evs, ev, ap, fac⟩ := self
  refine ⟨rfl, rfl, rfl, rfl, rfl, rfl, rfl, rfl, ?_⟩
  cases ev with
  | none => rfl
  | some e => cases e <;> rfl

/-- Claim C6: from_args returns none when the prior session has no
current event or the underlying event reconstruction fails; otherwise it
returns a session carrying the reconstructed event whose every handle
equals the prior session handle. -/
theorem from_args_spec {T : Type} (i : String) (p : Payload)
    (old : PistonWindow T) :
    (old.event = none → PistonWindow.from_args i p old = none)
    ∧ (∀ e, old.event = some e → Event.from_args i p e = none →
        PistonWindow.from_args i p old = none)
    ∧ (∀ e e2, old.event = some e → Event.from_args i p e = some e2 →
        ∃ s, PistonWindow.from_args i p old = some s
          ∧ s.event = some e2
          ∧ s.window = old.window ∧ s.stream = old.stream
          ∧ s.device = old.device ∧ s.g2d = old.g2d
          ∧ s.events = old.events ∧ s.app = old.app
          ∧ s.factory = old.factory) := by
  refine ⟨?_, ?_, ?_⟩
  · intro h
    simp [PistonWindow.from_args, h]
  · intro e he hf
    simp [PistonWindow.from_args, he, hf]
  · intro e e2 he hf
    exact ⟨{ window := old.window, stream := old.stream, device := old.device,
             g2d := old.g2d, events := old.events, event := some e2,
             app := old.app, factory := old.factory },
           by simp [PistonWindow.from_args, he, hf],
           rfl, rfl, rfl, rfl, rfl, rfl, rfl, rfl⟩

/-- Claim C6 witness: reconstruction of a render event against the
concrete render session. -/
theorem from_args_spec_witness :
    ∃ s, PistonWindow.from_args "piston/render" (Payload.render ⟨1, 2⟩)
          sampleRenderSession = some s
      ∧ s.event = some (Event.render ⟨1, 2⟩)
      ∧ s.window = sampleRenderSession.window
      ∧ s.stream = sampleRenderSession.stream
      ∧ s.device = sampleRenderSession.device
      ∧ s.g2d = sampleRenderSession.g2d
      ∧ s.events = sampleRenderSession.events
      ∧ s.app = sampleRenderSession.app
      ∧ s.factory = sampleRenderSession.factory :=
  (from_args_spec "piston/render" (Payload.render ⟨1, 2⟩)
      sampleRenderSession).2.2
    (Event.render ⟨800, 600⟩) (Event.render ⟨1, 2⟩) rfl (by decide)

/-- Claim C7: with_args aborts (embedded as none, the image of the
unwrap panic) when the session has no current event, and invokes the
visitor on the current event typed payload when one is present. -/
theorem with_args_spec {T U : Type} (self : PistonWindow T)
    (f : Payload → U) :
    (self.event = none → self.with_args f = none)
    ∧ (∀ e, self.event = some e → self.with_args f = some (f e.payload)) := by
  constructor
  · intro h
    simp [PistonWindow.with_args, h]
  · intro e h
    simp [PistonWindow.with_args, h]

/-- Claim C7 witness: the theorem at the eventless root session and at
the concrete render session. -/
theorem with_args_spec_witness :
    sampleRender.1.with_args (fun p => p) = none
    ∧ sampleRenderSession.with_args (fun p => p)
      = some (Event.payload (Event.render ⟨800, 600⟩)) :=
  ⟨(with_args_spec sampleRender.1 (fun p => p)).1 rfl,
   (with_args_spec sampleRenderSession (fun p => p)).2
     (Event.render ⟨800, 600⟩) rfl⟩

/-- Claim C8: event_id returns the identity tag of the current event
when one is set, and the empty tag when none is set. -/
theorem event_id_spec {T : Type} (self : PistonWindow T) :
    (self.event = none → self.event_id = "")
    ∧ (∀ e, self.event = some e → self.event_id = e.event_id) := by
  constructor
  · intro h
    simp [PistonWindow.event_id, h]
  · intro e h
    simp [PistonWindow.event_id, h]

/-- Claim C8 witness: the theorem at the eventless root session and at
the concrete render session. -/
theorem event_id_spec_witness :
    sampleRender.1.event_id = ""
    ∧ sampleRenderSession.event_id = Event.event_id (Event.render ⟨800, 600⟩) :=
  ⟨(event_id_spec sampleRender.1).1 rfl,
   (event_id_spec sampleRenderSession).2 (Event.render ⟨800, 600⟩) rfl⟩

/-- Claim C9: construction returns a root session whose current event is
absent. -/
theorem new_root_session_no_event {T : Type} (wid a : Nat) (d : Nat × Nat)
    (evs : List Event) :
    ((PistonWindow.new wid a d evs : PistonWindow T × World)).1.event
      = none := rfl

/-- Claim C10: the output target dimensions are truncated to 16 bits,
both at construction and on every resize advance: the stored values are
the drawable dimensions reduced modulo 65536, so a dimension of 65536 or
more is not stored exactly. -/
theorem output_size_u16_truncation {T : Type} (wid a dw dh : Nat)
    (evs : List Event) (self : PistonWindow T) (w : World) (x y : Nat)
    (rest : List Event) :
    ((PistonWindow.new wid a (dw, dh) evs : PistonWindow T × World)).2.streamWidth
      = dw % 65536
    ∧ ((PistonWindow.new wid a (dw, dh) evs : PistonWindow T × World)).2.streamHeight
      = dh % 65536
    ∧ (65536 ≤ dw →
        ((PistonWindow.new wid a (dw, dh) evs : PistonWindow T × World)).2.streamWidth
          ≠ dw)
    ∧ (w.events = Event.resize x y :: rest →
        (self.next w).2.streamWidth = w.drawSize.1 % 65536
        ∧ (self.next w).2.streamHeight = w.drawSize.2 % 65536) := by
  refine ⟨rfl, rfl, ?_, ?_⟩
  · intro hge
    simp only [PistonWindow.new]
    omega
  · intro hev
    constructor <;>
      simp [PistonWindow.next, hev, Event.after_render_args,
        Event.resize_args]

/-- Claim C10 witness: truncation at construction with drawable width
70000 and on the concrete oversized resize advance. -/
theorem output_size_u16_truncation_witness :
    ((PistonWindow.new 0 0 (70000, 50) [] : PistonWindow Unit × World)).2.streamWidth
      = 70000 % 65536
    ∧ ((PistonWindow.new 0 0 (70000, 50) [] : PistonWindow Unit × World)).2.streamWidth
      ≠ 70000
    ∧ (bigResize.1.next bigResize.2).2.streamWidth
      = bigResize.2.drawSize.1 % 65536 :=
  ⟨(output_size_u16_truncation 0 0 70000 50 [] bigResize.1 bigResize.2
      65536 600 []).1,
   (output_size_u16_truncation 0 0 70000 50 [] bigResize.1 bigResize.2
      65536 600 []).2.2.1 (by decide),
   ((output_size_u16_truncation 0 0 70000 50 [] bigResize.1 bigResize.2
      65536 600 []).2.2.2 rfl).1⟩

end Piston
